import Mathlib

/-!
Verification development for the treasury-agent core: the yield-pool
optimizer (`defi_optimizer.rs`), the balance/threshold monitor with its
transaction simulator (`safe_manager.rs`), and the cross-chain transfer
router (`cross_chain_router.rs`).

Modelling conventions:
- `f64` quantities (amounts, TVL, APY) are embedded as exact rationals `ℚ`;
  every decimal literal appearing in the source (0.1, 1000.0, ...) is
  exactly representable at the precision the comparisons use.
- `U256` balances, gas and prices are embedded as `ℕ` (comparisons only;
  no overflow is reached by the claims).
- The external provider (ledger balance read, gas estimation, gas price)
  is an explicit oracle record `ProviderEnv`; each fallible external call
  is a field of type `Except String ℕ`.
- `anyhow::Error` is embedded as `AnyError`: either a structured
  `SafeError` or an un-wrapped provider failure.
- Pool scoring uses real `log10`, embedded as `Real.logb 10` over `ℝ`;
  `f64::partial_cmp` over the (NaN-free) real scores is an
  `Option Ordering` that is always `some`.
- Rust's `Iterator::max_by` folds `cmp::max_by`, which keeps the second
  argument when the comparison is `Equal` or `Less`; `maxStep`/`rustMaxBy`
  embed exactly that fold.
-/

/-! ## DeFi optimizer (`defi_optimizer.rs`) -/

inductive DefiError where
  | NoPoolsFound
  | NoValidPools
  | ApiError (msg : String)
deriving DecidableEq, Repr

structure PoolData where
  protocol : String
  chain : String
  apy : Option ℚ
  tvl : ℚ
deriving DecidableEq, Repr

/-- `PoolData::is_valid`: `self.tvl >= 0.0 && self.apy.unwrap_or(0.0) >= 0.0`. -/
def PoolData.is_valid (p : PoolData) : Bool :=
  decide (0 ≤ p.tvl) && decide (0 ≤ p.apy.getD 0)

/-- The score computed inside `get_best_pool`'s `max_by` closure:
`p.apy.unwrap_or(0.0) * p.tvl.log10()`. -/
noncomputable def score (p : PoolData) : ℝ :=
  ((p.apy.getD 0 : ℚ) : ℝ) * Real.logb 10 ((p.tvl : ℚ) : ℝ)

/-- `f64::partial_cmp` on the real-valued scores: total here, so always `some`. -/
noncomputable def optCmpReal (x y : ℝ) : Option Ordering :=
  if x < y then some Ordering.lt
  else if y < x then some Ordering.gt
  else some Ordering.eq

/-- The comparison passed to `max_by`:
`a_score.partial_cmp(&b_score).unwrap_or(std::cmp::Ordering::Equal)`. -/
noncomputable def scoreCmp (a b : PoolData) : Ordering :=
  (optCmpReal (score a) (score b)).getD Ordering.eq

/-- One step of Rust's `Iterator::max_by` fold: `cmp::max_by` keeps the
accumulator only when the comparison returns `Greater`, otherwise the new
element replaces it (so equal elements keep the LAST one seen). -/
def maxStep {α : Type} (c : α → α → Ordering) (acc y : α) : α :=
  if c acc y = Ordering.gt then acc else y

/-- Rust's `Iterator::max_by`: `none` on an empty iterator, otherwise the
fold of `maxStep` over the rest, seeded with the first element. -/
def rustMaxBy {α : Type} (c : α → α → Ordering) : List α → Option α
  | [] => none
  | x :: xs => some (xs.foldl (maxStep c) x)

/-- `DefiOptimizer::get_best_pool`, with the fetched pool list passed in
(the fetch itself is external I/O): empty list fails `NoPoolsFound`;
empty valid-filtered list fails `NoValidPools`; otherwise `max_by` over the
valid pools with `scoreCmp` (total on a nonempty list, so the
`context("Failed to find best pool")` branch of the source is unreachable). -/
noncomputable def get_best_pool (pools : List PoolData) : Except DefiError PoolData :=
  if pools.isEmpty then .error DefiError.NoPoolsFound
  else
    match pools.filter PoolData.is_valid with
    | [] => .error DefiError.NoValidPools
    | x :: xs => .ok (xs.foldl (maxStep scoreCmp) x)

/-- First pool of the tie-breaking example: APY 0, TVL 10 (score 0). -/
def cexPoolA : PoolData :=
  { protocol := "PoolA", chain := "Ethereum", apy := some 0, tvl := 10 }

/-- Second pool of the tie-breaking example: APY 0, TVL 100 (score 0). -/
def cexPoolB : PoolData :=
  { protocol := "PoolB", chain := "Ethereum", apy := some 0, tvl := 100 }

/-! ## Safe manager (`safe_manager.rs`) -/

inductive SafeError where
  | TransactionFailed (msg : String)
  | InsufficientBalance (required available : ℕ)
  | InvalidAddress (msg : String)
  | ProviderError (msg : String)
  | GasEstimationFailed (msg : String)
  | CriticalBalance (current minimum : ℕ)
deriving DecidableEq, Repr

/-- `anyhow::Error`: either a structured `SafeError` or a raw provider
failure propagated by `?` without wrapping (the `get_gas_price` call). -/
inductive AnyError where
  | safe (e : SafeError)
  | provider (msg : String)
deriving DecidableEq, Repr

structure SafeTransaction where
  toAddr : String
  value : ℕ
  data : List ℕ
  operation : ℕ
  safe_tx_gas : ℕ
  nonce : Option ℕ
deriving DecidableEq, Repr

structure SafeManager where
  min_balance : ℕ
  critical_balance : ℕ
deriving DecidableEq, Repr

/-- The external provider oracle: outcome of the ledger balance read, the
gas-estimation call, and the gas-price call. -/
structure ProviderEnv where
  balance : Except String ℕ
  gas_estimate : Except String ℕ
  gas_price : Except String ℕ

/-- `SafeManager::new`: `min_balance = 10^15` wei, `critical_balance = min_balance / 2`. -/
def SafeManager.new : SafeManager :=
  { min_balance := 1000000000000000, critical_balance := 1000000000000000 / 2 }

/-- `SafeManager::set_min_balance`: sets `min_balance` and recomputes
`critical_balance = min_balance / 2` (integer division). -/
def SafeManager.set_min_balance (m : SafeManager) (v : ℕ) : SafeManager :=
  { m with min_balance := v, critical_balance := v / 2 }

/-- The documented threshold invariant. -/
def SafeManager.Inv (m : SafeManager) : Prop :=
  m.critical_balance = m.min_balance / 2

/-- `SafeManager::get_balance`: provider failure becomes `SafeError::ProviderError`. -/
def SafeManager.get_balance (_m : SafeManager) (env : ProviderEnv) : Except AnyError ℕ :=
  match env.balance with
  | .ok b => .ok b
  | .error e => .error (.safe (.ProviderError e))

/-- `SafeManager::check_balance_threshold`: reads the balance, fails
`CriticalBalance{current: balance, minimum: critical_balance}` when
`balance <= critical_balance`, otherwise returns `is_below = balance < min_balance`. -/
def SafeManager.check_balance_threshold (m : SafeManager) (env : ProviderEnv) :
    Except AnyError Bool :=
  match m.get_balance env with
  | .error e => .error e
  | .ok balance =>
    let is_below := decide (balance < m.min_balance)
    if balance ≤ m.critical_balance then
      .error (.safe (.CriticalBalance balance m.critical_balance))
    else
      .ok is_below

/-- `SafeManager::simulate_transaction`: reads the balance, fails
`InsufficientBalance{required: tx.value, available: balance}` when
`balance < tx.value`, then runs gas estimation, whose failure becomes
`GasEstimationFailed`. -/
def SafeManager.simulate_transaction (m : SafeManager) (env : ProviderEnv)
    (tx : SafeTransaction) : Except AnyError ℕ :=
  match m.get_balance env with
  | .error e => .error e
  | .ok balance =>
    if balance < tx.value then
      .error (.safe (.InsufficientBalance tx.value balance))
    else
      match env.gas_estimate with
      | .ok g => .ok g
      | .error e => .error (.safe (.GasEstimationFailed e))

/-- `SafeManager::execute_transaction`: re-simulates, fetches the gas price
(`?` propagates its raw failure), computes
`total_required = tx.value + estimated_gas * gas_price`, re-reads the
balance and fails `InsufficientBalance{required: total_required, available:
balance}` when `balance < total_required`; otherwise succeeds without any
signing/broadcast. The method takes `&self`; the returned second component
is the (unchanged) manager state. -/
def SafeManager.execute_transaction (m : SafeManager) (env : ProviderEnv)
    (tx : SafeTransaction) : Except AnyError Unit × SafeManager :=
  match m.simulate_transaction env tx with
  | .error e => (.error e, m)
  | .ok estimated_gas =>
    match env.gas_price with
    | .error e => (.error (.provider e), m)
    | .ok price =>
      let total_required := tx.value + estimated_gas * price
      match m.get_balance env with
      | .error e => (.error e, m)
      | .ok balance =>
        if balance < total_required then
          (.error (.safe (.InsufficientBalance total_required balance)), m)
        else
          (.ok (), m)

/-! ## Cross-chain router (`cross_chain_router.rs`) -/

inductive CrossChainError where
  | InvalidChain (chain supported : String)
  | InsufficientLiquidity (required available : ℚ)
  | AmountTooLow (amount minimum : ℚ)
  | BridgeError (msg : String)
deriving DecidableEq, Repr

structure CrossChainRouter where
  supported_chains : List String
  min_amount : ℚ
deriving DecidableEq, Repr

/-- `CrossChainRouter::new`: the five supported chains and
`min_amount = 0.1` (exactly 1/10). -/
def CrossChainRouter.new : CrossChainRouter :=
  { supported_chains := ["Ethereum", "Arbitrum", "Optimism", "Polygon", "Fantom"],
    min_amount := 1/10 }

/-- `CrossChainRouter::validate_chain`: membership in the registry, failing
`InvalidChain(chain, joined_supported_list)`. -/
def CrossChainRouter.validate_chain (r : CrossChainRouter) (chain : String) :
    Except CrossChainError Unit :=
  if chain ∈ r.supported_chains then .ok ()
  else .error (CrossChainError.InvalidChain chain
    (String.intercalate (", ") r.supported_chains))

/-- `CrossChainRouter::check_liquidity`: `simulated_liquidity = 1000.0`;
fails `InsufficientLiquidity{required: amount, available: 1000}` when
`amount > 1000`. -/
def CrossChainRouter.check_liquidity (_r : CrossChainRouter) (amount : ℚ)
    (_source_chain _target_chain : String) : Except CrossChainError Unit :=
  let simulated_liquidity : ℚ := 1000
  if amount > simulated_liquidity then
    .error (CrossChainError.InsufficientLiquidity amount simulated_liquidity)
  else .ok ()

/-- `CrossChainRouter::simulate_bridge_transaction`: three strictly ordered
sleep-only phases (lock, prove, release); always succeeds. Timing is not
modelled. -/
def CrossChainRouter.simulate_bridge_transaction (_r : CrossChainRouter) (_amount : ℚ)
    (_source_chain _target_chain : String) : Except CrossChainError Unit :=
  .ok ()

/-- `CrossChainRouter::route_funds`: validate source chain, validate target
chain, check `amount < min_amount` (`AmountTooLow`), check liquidity, then
run the simulated bridge. -/
def CrossChainRouter.route_funds (r : CrossChainRouter) (amount : ℚ)
    (source_chain target_chain : String) : Except CrossChainError Unit :=
  match r.validate_chain source_chain with
  | .error e => .error e
  | .ok _ =>
    match r.validate_chain target_chain with
    | .error e => .error e
    | .ok _ =>
      if amount < r.min_amount then
        .error (CrossChainError.AmountTooLow amount r.min_amount)
      else
        match r.check_liquidity amount source_chain target_chain with
        | .error e => .error e
        | .ok _ => r.simulate_bridge_transaction amount source_chain target_chain

/-! ## Shared helper lemmas -/

/-- A concrete transaction used to instantiate hypothesised theorems. -/
def txW : SafeTransaction :=
  { toAddr := "0x0", value := 3, data := [], operation := 0,
    safe_tx_gas := 0, nonce := none }

/-! ## Claims about the safe manager -/

/-- Claim C2: for every balance value read, `check_balance_threshold` fails
with `CriticalBalance{current, minimum}` iff `balance <= critical_balance`;
otherwise it returns `true` iff `critical_balance < balance < min_balance`
and returns `false` iff `balance >= min_balance`. -/
theorem c2_theorem (m : SafeManager) (b : ℕ) (ge gp : Except String ℕ) :
    (m.check_balance_threshold ⟨.ok b, ge, gp⟩ =
        .error (.safe (.CriticalBalance b m.critical_balance)) ↔
      b ≤ m.critical_balance) ∧
    (m.check_balance_threshold ⟨.ok b, ge, gp⟩ = .ok true ↔
      m.critical_balance < b ∧ b < m.min_balance) ∧
    (m.critical_balance < b →
      (m.check_balance_threshold ⟨.ok b, ge, gp⟩ = .ok false ↔ m.min_balance ≤ b)) := by
  simp only [SafeManager.check_balance_threshold, SafeManager.get_balance]
  split_ifs with h
  · refine ⟨iff_of_true rfl h, ?_, ?_⟩
    · simp
      omega
    · intro hlt
      omega
  · refine ⟨iff_of_false (by simp) h, ?_, ?_⟩
    · simp
      omega
    · intro hlt
      simp

/-- Claim C3: the invariant `critical_balance = min_balance / 2` holds after
`new` and after every `set_min_balance` (including odd values such as
`m = 3`, which gives critical balance 1); no other operation changes either
field (all other methods take the state immutably). -/
theorem c3_theorem :
    SafeManager.Inv SafeManager.new ∧
    (∀ (m : SafeManager) (v : ℕ), SafeManager.Inv (m.set_min_balance v)) ∧
    (∀ (m : SafeManager), (m.set_min_balance 3).critical_balance = 1) :=
  ⟨rfl, fun _ _ => rfl, fun _ => rfl⟩

/-- Claim C7: `simulate_transaction` fails
`InsufficientBalance{required: tx.value, available: balance}` exactly when
the fetched balance is below `tx.value`; with sufficient balance it fails
`GasEstimationFailed` when estimation errors and returns the estimate when
it succeeds. -/
theorem c7_theorem (m : SafeManager) (tx : SafeTransaction) (b : ℕ)
    (ge gp : Except String ℕ) :
    (m.simulate_transaction ⟨.ok b, ge, gp⟩ tx =
        .error (.safe (.InsufficientBalance tx.value b)) ↔ b < tx.value) ∧
    (∀ e, tx.value ≤ b → ge = .error e →
      m.simulate_transaction ⟨.ok b, ge, gp⟩ tx =
        .error (.safe (.GasEstimationFailed e))) ∧
    (∀ g, tx.value ≤ b → ge = .ok g →
      m.simulate_transaction ⟨.ok b, ge, gp⟩ tx = .ok g) := by
  simp only [SafeManager.simulate_transaction, SafeManager.get_balance]
  split_ifs with h
  · refine ⟨iff_of_true rfl h, ?_, ?_⟩ <;> intro x hx <;> omega
  · refine ⟨?_, ?_, ?_⟩
    · cases ge <;> simp <;> omega
    · intro e hle hge
      cases hge
      rfl
    · intro g hle hge
      cases hge
      rfl

/-- Claim C6: `execute_transaction` never changes the manager state;
it propagates any simulation failure; and after a successful simulation it
fails `InsufficientBalance{required: total, available: balance}` iff the
balance is below `total = tx.value + estimated_gas * gas_price`, and
otherwise succeeds. -/
theorem c6_theorem :
    (∀ (m : SafeManager) (env : ProviderEnv) (tx : SafeTransaction),
      (m.execute_transaction env tx).2 = m) ∧
    (∀ (m : SafeManager) (env : ProviderEnv) (tx : SafeTransaction) (e : AnyError),
      m.simulate_transaction env tx = .error e →
      (m.execute_transaction env tx).1 = .error e) ∧
    (∀ (m : SafeManager) (tx : SafeTransaction) (b g p : ℕ),
      tx.value ≤ b →
      (b < tx.value + g * p →
        (m.execute_transaction ⟨.ok b, .ok g, .ok p⟩ tx).1 =
          .error (.safe (.InsufficientBalance (tx.value + g * p) b))) ∧
      (tx.value + g * p ≤ b →
        (m.execute_transaction ⟨.ok b, .ok g, .ok p⟩ tx).1 = .ok ())) := by
  refine ⟨?_, ?_, ?_⟩
  · intro m env tx
    cases hs : m.simulate_transaction env tx with
    | error e => simp [SafeManager.execute_transaction, hs]
    | ok g =>
      cases hp : env.gas_price with
      | error e => simp [SafeManager.execute_transaction, hs, hp]
      | ok price =>
        cases hb : m.get_balance env with
        | error e => simp [SafeManager.execute_transaction, hs, hp, hb]
        | ok balance =>
          simp only [SafeManager.execute_transaction, hs, hp, hb]
          split <;> rfl
  · intro m env tx e hs
    simp [SafeManager.execute_transaction, hs]
  · intro m tx b g p hv
    constructor
    · intro hlt
      simp [SafeManager.execute_transaction, SafeManager.simulate_transaction,
        SafeManager.get_balance, not_lt.mpr hv, hlt]
    · intro hge
      simp [SafeManager.execute_transaction, SafeManager.simulate_transaction,
        SafeManager.get_balance, not_lt.mpr hv, not_lt.mpr hge]

/-- Claim C6 witness at a concrete state: balance 100, gas 2, price 3,
transaction value 3; total 9 is affordable, so execution succeeds. -/
theorem c6_witness :
    (SafeManager.new.execute_transaction ⟨.ok 100, .ok 2, .ok 3⟩ txW).1 = .ok () :=
  (c6_theorem.2.2 SafeManager.new txW 100 2 3 (by decide)).2 (by decide)

/-- Claim C7 witness: balance 7, estimate 5, transaction value 3 — the
simulation returns the estimate 5. -/
theorem c7_witness :
    SafeManager.new.simulate_transaction ⟨.ok 7, .ok 5, .ok 2⟩ txW = .ok 5 :=
  (c7_theorem SafeManager.new txW 7 (.ok 5) (.ok 2)).2.2 5 (by decide) rfl

/-- Claim C2 witness: with the default thresholds and balance exactly
`min_balance`, the monitor returns `false` iff the balance is at least
`min_balance` (it is). -/
theorem c2_witness :
    SafeManager.new.check_balance_threshold
        ⟨.ok 1000000000000000, .ok 0, .ok 0⟩ = .ok false ↔
      SafeManager.new.min_balance ≤ 1000000000000000 :=
  (c2_theorem SafeManager.new 1000000000000000 (.ok 0) (.ok 0)).2.2 (by decide)

/-! ## Claims about the cross-chain router -/

/-- The default minimum transfer, as a projection equation usable by `simp only`. -/
lemma new_min_amount : CrossChainRouter.new.min_amount = 1/10 := rfl

/-- Claim C4: `route_funds` validates, in order, source-chain membership,
target-chain membership (`InvalidChain` with the offending chain and the
supported list), `amount >= 0.1` (`AmountTooLow`), `amount <= 1000`
(`InsufficientLiquidity`); when all pass the simulated bridge completes and
the call succeeds. The four concrete test vectors behave as stated (0.05 is
the exact rational 1/20). -/
theorem c4_theorem :
    (∀ (a : ℚ) (s t : String), s ∉ CrossChainRouter.new.supported_chains →
      CrossChainRouter.new.route_funds a s t =
        .error (.InvalidChain s
          (String.intercalate (", ") CrossChainRouter.new.supported_chains))) ∧
    (∀ (a : ℚ) (s t : String), s ∈ CrossChainRouter.new.supported_chains →
      t ∉ CrossChainRouter.new.supported_chains →
      CrossChainRouter.new.route_funds a s t =
        .error (.InvalidChain t
          (String.intercalate (", ") CrossChainRouter.new.supported_chains))) ∧
    (∀ (a : ℚ) (s t : String), s ∈ CrossChainRouter.new.supported_chains →
      t ∈ CrossChainRouter.new.supported_chains → a < 1/10 →
      CrossChainRouter.new.route_funds a s t =
        .error (.AmountTooLow a (1/10))) ∧
    (∀ (a : ℚ) (s t : String), s ∈ CrossChainRouter.new.supported_chains →
      t ∈ CrossChainRouter.new.supported_chains → 1/10 ≤ a → 1000 < a →
      CrossChainRouter.new.route_funds a s t =
        .error (.InsufficientLiquidity a 1000)) ∧
    (∀ (a : ℚ) (s t : String), s ∈ CrossChainRouter.new.supported_chains →
      t ∈ CrossChainRouter.new.supported_chains → 1/10 ≤ a → a ≤ 1000 →
      CrossChainRouter.new.route_funds a s t = .ok ()) ∧
    CrossChainRouter.new.route_funds 100 ("Ethereum") ("Unsupported") =
      .error (.InvalidChain ("Unsupported")
        (String.intercalate (", ") CrossChainRouter.new.supported_chains)) ∧
    CrossChainRouter.new.route_funds (1/20) ("Ethereum") ("Arbitrum") =
      .error (.AmountTooLow (1/20) (1/10)) ∧
    CrossChainRouter.new.route_funds 2000 ("Ethereum") ("Arbitrum") =
      .error (.InsufficientLiquidity 2000 1000) ∧
    CrossChainRouter.new.route_funds 100 ("Ethereum") ("Arbitrum") = .ok () := by
  have hsrc : ∀ (a : ℚ) (s t : String), s ∉ CrossChainRouter.new.supported_chains →
      CrossChainRouter.new.route_funds a s t =
        .error (.InvalidChain s
          (String.intercalate (", ") CrossChainRouter.new.supported_chains)) := by
    intro a s t hs
    simp only [CrossChainRouter.route_funds, CrossChainRouter.validate_chain,
      if_neg hs]
  have htgt : ∀ (a : ℚ) (s t : String), s ∈ CrossChainRouter.new.supported_chains →
      t ∉ CrossChainRouter.new.supported_chains →
      CrossChainRouter.new.route_funds a s t =
        .error (.InvalidChain t
          (String.intercalate (", ") CrossChainRouter.new.supported_chains)) := by
    intro a s t hs ht
    simp only [CrossChainRouter.route_funds, CrossChainRouter.validate_chain,
      if_pos hs, if_neg ht]
  have hamt : ∀ (a : ℚ) (s t : String), s ∈ CrossChainRouter.new.supported_chains →
      t ∈ CrossChainRouter.new.supported_chains → a < 1/10 →
      CrossChainRouter.new.route_funds a s t =
        .error (.AmountTooLow a (1/10)) := by
    intro a s t hs ht ha
    simp only [CrossChainRouter.route_funds, CrossChainRouter.validate_chain,
      new_min_amount, if_pos hs, if_pos ht, if_pos ha]
  have hliq : ∀ (a : ℚ) (s t : String), s ∈ CrossChainRouter.new.supported_chains →
      t ∈ CrossChainRouter.new.supported_chains → 1/10 ≤ a → 1000 < a →
      CrossChainRouter.new.route_funds a s t =
        .error (.InsufficientLiquidity a 1000) := by
    intro a s t hs ht h1 h2
    simp only [CrossChainRouter.route_funds, CrossChainRouter.validate_chain,
      CrossChainRouter.check_liquidity, new_min_amount, if_pos hs, if_pos ht,
      if_neg (not_lt.mpr h1), if_pos h2]
  have hok : ∀ (a : ℚ) (s t : String), s ∈ CrossChainRouter.new.supported_chains →
      t ∈ CrossChainRouter.new.supported_chains → 1/10 ≤ a → a ≤ 1000 →
      CrossChainRouter.new.route_funds a s t = .ok () := by
    intro a s t hs ht h1 h2
    simp only [CrossChainRouter.route_funds, CrossChainRouter.validate_chain,
      CrossChainRouter.check_liquidity, CrossChainRouter.simulate_bridge_transaction,
      new_min_amount, if_pos hs, if_pos ht, if_neg (not_lt.mpr h1),
      if_neg (not_lt.mpr h2)]
  exact ⟨hsrc, htgt, hamt, hliq, hok,
    htgt 100 ("Ethereum") ("Unsupported") (by decide) (by decide),
    hamt (1/20) ("Ethereum") ("Arbitrum") (by decide) (by decide) (by norm_num),
    hliq 2000 ("Ethereum") ("Arbitrum") (by decide) (by decide) (by norm_num) (by norm_num),
    hok 100 ("Ethereum") ("Arbitrum") (by decide) (by decide) (by norm_num) (by norm_num)⟩

/-- Claim C4 witness: the success vector, discharged through the general
success clause. -/
theorem c4_witness :
    CrossChainRouter.new.route_funds 100 ("Ethereum") ("Arbitrum") = .ok () :=
  c4_theorem.2.2.2.2.1 100 ("Ethereum") ("Arbitrum")
    (by decide) (by decide) (by norm_num) (by norm_num)

/-- Claim C10: `route_funds` never rejects a transfer whose source and
destination chain coincide: for every supported chain and every amount in
`[0.1, 1000]` the same-chain transfer succeeds. -/
theorem c10_theorem (c : String) (a : ℚ)
    (hc : c ∈ CrossChainRouter.new.supported_chains)
    (h1 : 1/10 ≤ a) (h2 : a ≤ 1000) :
    CrossChainRouter.new.route_funds a c c = .ok () := by
  simp only [CrossChainRouter.route_funds, CrossChainRouter.validate_chain,
    CrossChainRouter.check_liquidity, CrossChainRouter.simulate_bridge_transaction,
    new_min_amount, if_pos hc, if_neg (not_lt.mpr h1), if_neg (not_lt.mpr h2)]

/-- Claim C10 witness: 100 tokens from Ethereum to Ethereum succeeds. -/
theorem c10_witness :
    CrossChainRouter.new.route_funds 100 ("Ethereum") ("Ethereum") = .ok () :=
  c10_theorem ("Ethereum") 100 (by decide) (by norm_num) (by norm_num)

/-! ## Claims about the pool optimizer -/

/-- `scoreCmp` returns `Greater` exactly when the accumulator's score is
strictly larger. -/
lemma scoreCmp_gt_iff (a b : PoolData) :
    scoreCmp a b = Ordering.gt ↔ score b < score a := by
  unfold scoreCmp optCmpReal
  split_ifs with h1 h2
  · exact iff_of_false (by simp) (asymm h1)
  · exact iff_of_true (by simp) h2
  · exact iff_of_false (by simp) h2

/-- The `max_by` fold always returns an element of the iterated list. -/
lemma foldl_maxStep_mem {α : Type} (c : α → α → Ordering) (x : α) (xs : List α) :
    xs.foldl (maxStep c) x ∈ x :: xs := by
  induction xs generalizing x with
  | nil => simp
  | cons y ys ih =>
    simp only [List.foldl_cons]
    have hxy : maxStep c x y = x ∨ maxStep c x y = y := by
      unfold maxStep
      split
      · exact Or.inl rfl
      · exact Or.inr rfl
    rcases List.mem_cons.mp (ih (maxStep c x y)) with h0 | h0
    · rcases hxy with h1 | h1
      · rw [h0, h1]
        exact List.mem_cons_self _ _
      · rw [h0, h1]
        exact List.mem_cons_of_mem _ (List.mem_cons_self _ _)
    · exact List.mem_cons_of_mem _ (List.mem_cons_of_mem _ h0)

/-- The `max_by` fold with `scoreCmp` returns a maximum-scoring element. -/
lemma foldl_maxStep_score_le (x : PoolData) (xs : List PoolData) :
    ∀ q ∈ x :: xs, score q ≤ score (xs.foldl (maxStep scoreCmp) x) := by
  induction xs generalizing x with
  | nil =>
    intro q hq
    simp only [List.mem_singleton] at hq
    subst hq
    simp
  | cons y ys ih =>
    intro q hq
    simp only [List.foldl_cons]
    have hx : score x ≤ score (maxStep scoreCmp x y) := by
      unfold maxStep
      split
      · exact le_refl _
      · rename_i h
        rw [scoreCmp_gt_iff] at h
        exact not_lt.mp h
    have hy : score y ≤ score (maxStep scoreCmp x y) := by
      unfold maxStep
      split
      · rename_i h
        exact le_of_lt ((scoreCmp_gt_iff _ _).mp h)
      · exact le_refl _
    rcases List.mem_cons.mp hq with h0 | h0
    · exact le_trans (h0 ▸ hx) (ih (maxStep scoreCmp x y) _ (List.mem_cons_self _ _))
    · rcases List.mem_cons.mp h0 with h1 | h1
      · exact le_trans (h1 ▸ hy) (ih (maxStep scoreCmp x y) _ (List.mem_cons_self _ _))
      · exact ih (maxStep scoreCmp x y) q (List.mem_cons_of_mem _ h1)

/-- A successful `get_best_pool` returns an element of the valid-filtered list. -/
lemma get_best_pool_ok_mem_filter {pools : List PoolData} {p : PoolData}
    (h : get_best_pool pools = .ok p) : p ∈ pools.filter PoolData.is_valid := by
  unfold get_best_pool at h
  by_cases hP : pools.isEmpty
  · rw [if_pos hP] at h
    exact Except.noConfusion h
  · rw [if_neg hP] at h
    rcases hV : pools.filter PoolData.is_valid with _ | ⟨x, xs⟩
    · rw [hV] at h
      exact Except.noConfusion h
    · rw [hV] at h
      injection h with h2
      rw [← h2]
      exact foldl_maxStep_mem scoreCmp x xs

/-- A successful `get_best_pool` returns a maximum-scoring valid pool. -/
lemma get_best_pool_ok_score_le {pools : List PoolData} {p : PoolData}
    (h : get_best_pool pools = .ok p) :
    ∀ q ∈ pools.filter PoolData.is_valid, score q ≤ score p := by
  unfold get_best_pool at h
  by_cases hP : pools.isEmpty
  · rw [if_pos hP] at h
    exact Except.noConfusion h
  · rw [if_neg hP] at h
    rcases hV : pools.filter PoolData.is_valid with _ | ⟨x, xs⟩
    · simp
    · rw [hV] at h
      injection h with h2
      rw [← h2]
      exact foldl_maxStep_score_le x xs

/-- On a two-element list of valid pools with equal scores, `get_best_pool`
returns the SECOND (last-seen) pool: `max_by` keeps the later element when
the comparison is `Equal`. -/
lemma get_best_pool_pair_tie (a b : PoolData) (ha : a.is_valid = true)
    (hb : b.is_valid = true) (hs : score a = score b) :
    get_best_pool [a, b] = .ok b := by
  have hcmp : scoreCmp a b ≠ Ordering.gt := by
    rw [Ne, scoreCmp_gt_iff, hs]
    exact lt_irrefl _
  have hf : [a, b].filter PoolData.is_valid = [a, b] := by
    simp [List.filter, ha, hb]
  unfold get_best_pool
  rw [if_neg (by simp), hf]
  simp [maxStep, hcmp]

/-- The tie-breaking example pools both score `0 * log10(tvl) = 0`. -/
lemma score_cexPoolA : score cexPoolA = 0 := by
  simp [score, cexPoolA]

/-- The tie-breaking example pools both score `0 * log10(tvl) = 0`. -/
lemma score_cexPoolB : score cexPoolB = 0 := by
  simp [score, cexPoolB]

/-- Claim C1 counterexample: two valid pools with tied scores (APY 0), on
which `get_best_pool` returns the LAST-seen pool, not the first-seen one
the claim requires. -/
theorem c1_counterexample :
    cexPoolA.is_valid = true ∧ cexPoolB.is_valid = true ∧
    score cexPoolA = score cexPoolB ∧
    get_best_pool [cexPoolA, cexPoolB] = .ok cexPoolB ∧
    cexPoolB ≠ cexPoolA := by
  have ha : cexPoolA.is_valid = true := by norm_num [PoolData.is_valid, cexPoolA]
  have hb : cexPoolB.is_valid = true := by norm_num [PoolData.is_valid, cexPoolB]
  have hs : score cexPoolA = score cexPoolB := by
    rw [score_cexPoolA, score_cexPoolB]
  exact ⟨ha, hb, hs, get_best_pool_pair_tie cexPoolA cexPoolB ha hb hs,
    by simp [cexPoolA, cexPoolB]⟩

/-- Claim C1 (amended): every valid candidate is scored as
`yield_percent * log10(tvl)` and a maximum-scoring candidate is returned;
ties (or non-comparable scores, treated as equal) keep the LAST-seen of the
tied candidates. -/
theorem c1_theorem :
    (∀ (pools : List PoolData) (p : PoolData), get_best_pool pools = .ok p →
      p ∈ pools.filter PoolData.is_valid ∧
      ∀ q ∈ pools.filter PoolData.is_valid, score q ≤ score p) ∧
    (∀ a b : PoolData, a.is_valid = true → b.is_valid = true →
      score a = score b → get_best_pool [a, b] = .ok b) := by
  constructor
  · intro pools p h
    exact ⟨get_best_pool_ok_mem_filter h, get_best_pool_ok_score_le h⟩
  · exact get_best_pool_pair_tie

/-- Claim C1 witness: the tie clause applied to the concrete zero-score pools. -/
theorem c1_witness : get_best_pool [cexPoolA, cexPoolB] = .ok cexPoolB :=
  c1_theorem.2 cexPoolA cexPoolB (by norm_num [PoolData.is_valid, cexPoolA])
    (by norm_num [PoolData.is_valid, cexPoolB])
    (by rw [score_cexPoolA, score_cexPoolB])

/-- Claim C5: `get_best_pool` fails `NoPoolsFound` iff the fetched list is
empty, fails `NoValidPools` iff the list is nonempty but no candidate passes
the validity filter, and otherwise returns a candidate from the list. -/
theorem c5_theorem (pools : List PoolData) :
    (get_best_pool pools = .error DefiError.NoPoolsFound ↔ pools = []) ∧
    (get_best_pool pools = .error DefiError.NoValidPools ↔
      pools ≠ [] ∧ pools.filter PoolData.is_valid = []) ∧
    (∀ p, get_best_pool pools = .ok p → p ∈ pools) := by
  by_cases hP : pools = []
  · subst hP
    refine ⟨?_, ?_, ?_⟩ <;> simp [get_best_pool]
  · have hne : pools.isEmpty = false := by
      simpa [List.isEmpty_iff] using hP
    rcases hV : pools.filter PoolData.is_valid with _ | ⟨x, xs⟩
    · have hgb : get_best_pool pools = .error DefiError.NoValidPools := by
        unfold get_best_pool
        simp [hne, hV]
      refine ⟨?_, ?_, ?_⟩
      · rw [hgb]
        simp [hP]
      · rw [hgb]
        simp [hP, hV]
      · intro p hp
        rw [hgb] at hp
        exact Except.noConfusion hp
    · have hgb : get_best_pool pools = .ok (xs.foldl (maxStep scoreCmp) x) := by
        unfold get_best_pool
        simp [hne, hV]
      refine ⟨?_, ?_, ?_⟩
      · rw [hgb]
        simp [hP]
      · rw [hgb]
        simp [hV]
      · intro p hp
        rw [hgb] at hp
        injection hp with h2
        have hm : xs.foldl (maxStep scoreCmp) x ∈ pools.filter PoolData.is_valid := by
          rw [hV]
          exact foldl_maxStep_mem scoreCmp x xs
        rw [← h2]
        exact List.mem_of_mem_filter hm

/-- Claim C5 witness: on the singleton valid pool the optimizer succeeds and
returns an element of the input list. -/
theorem c5_witness : cexPoolA ∈ [cexPoolA] :=
  (c5_theorem [cexPoolA]).2.2 cexPoolA
    (by simp [get_best_pool, PoolData.is_valid, cexPoolA])

/-- Claim C8: whenever `get_best_pool` succeeds, the returned candidate
satisfies the validity predicate: its TVL is nonnegative and any present
yield is nonnegative. -/
theorem c8_theorem (pools : List PoolData) (p : PoolData)
    (h : get_best_pool pools = .ok p) :
    p.is_valid = true ∧ 0 ≤ p.tvl ∧ ∀ y, p.apy = some y → 0 ≤ y := by
  have hm := get_best_pool_ok_mem_filter h
  have hv : p.is_valid = true := (List.mem_filter.mp hm).2
  have hv2 := hv
  unfold PoolData.is_valid at hv2
  simp only [Bool.and_eq_true, decide_eq_true_eq] at hv2
  refine ⟨hv, hv2.1, ?_⟩
  intro y hy
  have hg := hv2.2
  rw [hy] at hg
  simpa using hg

/-- Claim C8 witness: applied to the singleton valid pool. -/
theorem c8_witness :
    cexPoolA.is_valid = true ∧ 0 ≤ cexPoolA.tvl ∧
      ∀ y, cexPoolA.apy = some y → 0 ≤ y :=
  c8_theorem [cexPoolA] cexPoolA
    (by simp [get_best_pool, PoolData.is_valid, cexPoolA])

/-- Claim C9: the validity filter is pure and idempotent: filtering twice
equals filtering once, and every survivor of the filter used by
`get_best_pool` satisfies the predicate when re-checked. -/
theorem c9_theorem :
    (∀ pools : List PoolData,
      (pools.filter PoolData.is_valid).filter PoolData.is_valid =
        pools.filter PoolData.is_valid) ∧
    (∀ (pools : List PoolData) (p : PoolData),
      p ∈ pools.filter PoolData.is_valid → p.is_valid = true) := by
  constructor
  · intro pools
    rw [List.filter_filter]
    simp
  · intro pools p hp
    exact (List.mem_filter.mp hp).2

/-- Claim C9 witness: a concrete survivor of the filter re-checks as valid. -/
theorem c9_witness : cexPoolA.is_valid = true :=
  c9_theorem.2 [cexPoolA] cexPoolA (by simp [PoolData.is_valid, cexPoolA])
